import Mathlib

/-!
Shallow embedding of the job-caching and polling core of the aquamonitor
notebook helpers (`notebooks/utils.py` and `notebooks/cached_job.py`).

The remote backend, the wall clock and the file system are modelled as
explicit inputs: a poll loop consumes a list of `PollEvent`s (what each
`job.describe_job()` call would have yielded), and its observable side
effects (sleeps, re-authentication, status log lines) are returned as a
list of `Action`s.  Time-valued quantities (poll intervals, retry sleeps)
are rationals, mirroring Python floats on the exactly-representable
values used here (5, 1.25, 30, 60).
-/

namespace Aquamonitor

/-- The dictionary returned by a successful `job.describe_job()` call:
the fields read by `wait` (`utils.py` lines 111-112).  A missing
`status` key is read back as `"N/A"` via `.get("status", "N/A")`. -/
structure JobInfo where
  status : Option String
  progress : Option Nat
  deriving DecidableEq, Repr

/-- What one `job.describe_job()` attempt in the poll loop of
`utils.start_and_wait.wait` (`utils.py` lines 95-110) yields:
a job-info dictionary, a `requests.ConnectionError`, or an
`OpenEoApiError` with the given HTTP status code. -/
inductive PollEvent where
  | ok (info : JobInfo)
  | connErr
  | apiErr (httpStatusCode : Nat)
  deriving DecidableEq, Repr

/-- Observable side effects of the poll loop, in program order:
a `print_status` log line (`utils.py` line 113), the adaptive
`sleep(poll_interval)` (line 118), the soft-error
`sleep(connection_retry_interval)` (line 93), and the
`authenticate_oidc()` re-authentication call (line 107). -/
inductive Action where
  | printStatus (jobId status : String)
  | pollSleep (seconds : ℚ)
  | retrySleep (seconds : ℚ)
  | reauth
  deriving DecidableEq, Repr

/-- How the poll loop of `utils.start_and_wait.wait` ends. -/
inductive WaitResult where
  /-- Loop broke with terminal status `finished`; `wait` returns normally. -/
  | finished
  /-- `JobFailedException` (`utils.py` lines 121-124): loop broke on a
  non-`finished` terminal status; the exception message carries the job id,
  the status, and the elapsed wall-clock time (the wall clock is outside
  this embedding). -/
  | jobFailed (jobId status : String)
  /-- `OpenEoClientException("Excessive soft errors")` (`utils.py` line 91). -/
  | excessiveSoftErrors
  /-- An `OpenEoApiError` re-raised by the bare `raise` (`utils.py` line 109). -/
  | apiError (httpStatusCode : Nat)
  /-- Python `UnboundLocalError`: the fall-through after the 403 handler
  (`utils.py` lines 106-111) reads `job_info` before any assignment. -/
  | unboundLocal
  /-- The supplied event list ran out while the loop would still poll. -/
  | outOfTrace
  deriving DecidableEq, Repr

/-- The non-terminal statuses of the poll loop
(`utils.py` line 114: `('submitted', 'created', 'queued', 'running')`). -/
def pollStatuses : List String := ["submitted", "created", "queued", "running"]

/-- The body of `utils.start_and_wait.wait` (`utils.py` lines 95-124),
one recursive call per iteration of the `while True` loop.  Arguments
after the event list are the loop-carried Python locals: `poll_interval`,
`_soft_error_count`, and the current value of the `job_info` variable
(`none` while still unassigned).  Note the 403 handler (lines 106-107)
has no `continue`: control falls through to line 111 and re-reads the
*previous* `job_info` (crashing with `UnboundLocalError` if there is
none yet). -/
def waitLoop (maxPollInterval connectionRetryInterval : ℚ) (softErrorMax : Nat)
    (jobId : String) :
    List PollEvent → ℚ → Nat → Option JobInfo → WaitResult × List Action
  | [], _, _, _ => (.outOfTrace, [])
  | .ok info :: rest, pollInterval, softErrorCount, _ =>
      let status := info.status.getD "N/A"
      if status ∈ pollStatuses then
        let r := waitLoop maxPollInterval connectionRetryInterval softErrorMax jobId rest
          (min (5/4 * pollInterval) maxPollInterval) softErrorCount (some info)
        (r.1, .printStatus jobId status :: .pollSleep pollInterval :: r.2)
      else if status = "finished" then (.finished, [.printStatus jobId status])
      else (.jobFailed jobId status, [.printStatus jobId status])
  | .connErr :: rest, pollInterval, softErrorCount, lastInfo =>
      -- soft_error (utils.py lines 86-93): increment, raise if over budget,
      -- else log and sleep(connection_retry_interval), then re-poll
      if softErrorCount + 1 > softErrorMax then (.excessiveSoftErrors, [])
      else
        let r := waitLoop maxPollInterval connectionRetryInterval softErrorMax jobId rest
          pollInterval (softErrorCount + 1) lastInfo
        (r.1, .retrySleep connectionRetryInterval :: r.2)
  | .apiErr code :: rest, pollInterval, softErrorCount, lastInfo =>
      if code = 503 then
        if softErrorCount + 1 > softErrorMax then (.excessiveSoftErrors, [])
        else
          let r := waitLoop maxPollInterval connectionRetryInterval softErrorMax jobId rest
            pollInterval (softErrorCount + 1) lastInfo
          (r.1, .retrySleep connectionRetryInterval :: r.2)
      else if code = 403 then
        -- authenticate_oidc(), then fall through to line 111 with the
        -- stale job_info (no `continue` in this branch)
        match lastInfo with
        | none => (.unboundLocal, [.reauth])
        | some info =>
          let status := info.status.getD "N/A"
          if status ∈ pollStatuses then
            let r := waitLoop maxPollInterval connectionRetryInterval softErrorMax jobId rest
              (min (5/4 * pollInterval) maxPollInterval) softErrorCount (some info)
            (r.1, .reauth :: .printStatus jobId status :: .pollSleep pollInterval :: r.2)
          else if status = "finished" then (.finished, [.reauth, .printStatus jobId status])
          else (.jobFailed jobId status, [.reauth, .printStatus jobId status])
      else (.apiError code, [])

/-- `utils.start_and_wait.wait` entry: `poll_interval = min(5, max_poll_interval)`
(line 82), `_soft_error_count = 0` (line 84), `job_info` unassigned. -/
def wait (maxPollInterval connectionRetryInterval : ℚ) (softErrorMax : Nat)
    (jobId : String) (events : List PollEvent) : WaitResult × List Action :=
  waitLoop maxPollInterval connectionRetryInterval softErrorMax jobId events
    (min 5 maxPollInterval) 0 none

/-- Signature defaults of `wait` (`utils.py` lines 57-61):
`max_poll_interval=60`, `connection_retry_interval=30`, `soft_error_max=10`. -/
def max_poll_interval_default : ℚ := 60

/-- Default `connection_retry_interval` (`utils.py` line 59). -/
def connection_retry_interval_default : ℚ := 30

/-- Default `soft_error_max` (`utils.py` line 60). -/
def soft_error_max_default : Nat := 10

/-- The call `wait(start_time=start_time, soft_error_max=50)` made by
`utils.start_and_wait` (`utils.py` line 131): the other parameters keep
their defaults. -/
def start_and_wait_poll (jobId : String) (events : List PollEvent) :
    WaitResult × List Action :=
  wait max_poll_interval_default connection_retry_interval_default 50 jobId events

/-- The poller's interval recurrence taken on its own
(`utils.py` lines 82 and 119): starts at `min(5, max_poll_interval)`,
then `poll_interval = min(1.25 * poll_interval, max_poll_interval)`
after each poll. -/
def pollIntervalSeq (maxPollInterval : ℚ) : Nat → ℚ
  | 0 => min 5 maxPollInterval
  | n + 1 => min (5/4 * pollIntervalSeq maxPollInterval n) maxPollInterval

/-- A poll event whose `describe_job()` dictionary carries the given
`status` value (and no progress). -/
def mkStatusEvent (s : String) : PollEvent :=
  .ok ⟨some s, none⟩

/-- Predicted outcome of the poll loop on a pure status trace: the loop
ends at the first polled status outside `pollStatuses` (which includes
`submitted`); a `finished` terminal succeeds, any other terminal status
raises "job did not finish" carrying the job id and that status. -/
def waitFirstTerminal (jobId : String) : List String → WaitResult
  | [] => .outOfTrace
  | s :: rest =>
      if s ∈ pollStatuses then waitFirstTerminal jobId rest
      else if s = "finished" then .finished
      else .jobFailed jobId s

/-! ## `notebooks/cached_job.py` -/

/-- One entry of the backend's `connection.list_jobs()` output, with
the fields the repository reads: `id`, `title`, `status`, `updated`
(spec section 6 shape). -/
structure JobSummary where
  id : String
  title : String
  status : String
  updated : String
  deriving DecidableEq, Repr

/-- A flat process graph (`flat_graph`): a Python dict from node names to
node payloads; an *empty* dict is falsy in `elif flat_graph:`. -/
abbrev Graph := List (String × String)

/-- Python truthiness of an `Optional[str]` (or `Optional[Path]`):
`None` and the empty string are falsy. -/
def truthyOptStr : Option String → Bool
  | none => false
  | some s => !s.isEmpty

/-- Python truthiness of the `Optional[Dict]` `flat_graph`:
`None` and the empty dict are falsy. -/
def truthyOptGraph : Option Graph → Bool
  | none => false
  | some g => !g.isEmpty

/-- The two `AttributeError`s of `CachedJob.__init__`
(`cached_job.py` lines 66 and 74-75). -/
inductive InitError where
  /-- "job id not found in backend." -/
  | jobIdNotFound
  /-- "CachedJob not existing yet on the backend requires either a
  job_id, or a process_graph" -/
  | insufficientArguments
  deriving DecidableEq, Repr

/-- The fields of a constructed `CachedJob`: the `_`-prefixed private
attributes set in `__init__`, plus the bound `job_id` of the underlying
`BatchJob` (set via `super().__init__`). -/
structure CachedJob where
  _job_title : String
  _local_cache_file : Option String
  _flat_graph : Option Graph
  _job_cache : List (String × String)
  _is_cached : Bool
  job_id : String
  deriving DecidableEq, Repr

/-- The else-branch of `CachedJob.__init__` (`cached_job.py` lines
55-75): the job was not served from the cache.  Returns the constructed
object or the raised error, paired with the `connection.create_job`
calls performed (graph, title). -/
def cachedJobInitUncached (job_title : String) (local_cache_file : Option String)
    (backendJobs : List JobSummary) (issuedId : String)
    (job_id : Option String) (flat_graph : Option Graph)
    (loadedCache : List (String × String)) :
    Except InitError CachedJob × List (Graph × String) :=
  if truthyOptStr job_id then
    let jid := job_id.getD ""
    -- any(filter(lambda job: job.get("id") == job_id, connection.list_jobs()))
    if backendJobs.any (fun job => job.id == jid) then
      (.ok { _job_title := job_title, _local_cache_file := local_cache_file,
             _flat_graph := flat_graph, _job_cache := loadedCache,
             _is_cached := false, job_id := jid }, [])
    else
      (.error .jobIdNotFound, [])
  else if truthyOptGraph flat_graph then
    -- job = connection.create_job(process_graph=flat_graph, title=job_title)
    (.ok { _job_title := job_title, _local_cache_file := local_cache_file,
           _flat_graph := flat_graph, _job_cache := loadedCache,
           _is_cached := false, job_id := issuedId },
     [(flat_graph.getD [], job_title)])
  else
    (.error .insufficientArguments, [])

/-- `CachedJob.__init__` (`cached_job.py` lines 31-75) after the cache
file has been loaded into `loadedCache`.  `issuedId` is the id the
backend would issue if `create_job` were called. -/
def cachedJobInit (job_title : String) (local_cache_file : Option String)
    (backendJobs : List JobSummary) (issuedId : String)
    (job_id : Option String) (flat_graph : Option Graph) (recalculate : Bool)
    (loadedCache : List (String × String)) :
    Except InitError CachedJob × List (Graph × String) :=
  match loadedCache.lookup job_title with
  | some cachedId =>
      if recalculate then
        cachedJobInitUncached job_title local_cache_file backendJobs issuedId
          job_id flat_graph loadedCache
      else
        (.ok { _job_title := job_title, _local_cache_file := local_cache_file,
               _flat_graph := flat_graph, _job_cache := loadedCache,
               _is_cached := true, job_id := cachedId }, [])
  | none =>
      cachedJobInitUncached job_title local_cache_file backendJobs issuedId
        job_id flat_graph loadedCache

/-- The cache-file load of `__init__` (`cached_job.py` lines 44-50):
`open(None)` raises `TypeError` and a missing file raises
`FileNotFoundError`, both caught and replaced by the empty dict. -/
def loadCache (fs : List (String × List (String × String)))
    (path : Option String) : List (String × String) :=
  match path with
  | none => []
  | some p => (fs.lookup p).getD []

/-- `CachedJob(...)` as called by a notebook: load the cache file from
the (modelled) file system, then run the constructor body. -/
def cachedJobResolve (fs : List (String × List (String × String)))
    (job_title : String) (local_cache_file : Option String)
    (backendJobs : List JobSummary) (issuedId : String)
    (job_id : Option String) (flat_graph : Option Graph) (recalculate : Bool) :
    Except InitError CachedJob × List (Graph × String) :=
  cachedJobInit job_title local_cache_file backendJobs issuedId job_id
    flat_graph recalculate (loadCache fs local_cache_file)

/-- Property getter `CachedJob.is_cached` (`cached_job.py` line 86-87). -/
def CachedJob.is_cached (s : CachedJob) : Bool :=
  s._is_cached

/-- Property getter `CachedJob.job_title` (`cached_job.py` lines 97-99). -/
def CachedJob.job_title (s : CachedJob) : String :=
  s._job_title

/-- Property getter `CachedJob.local_cache_file` (`cached_job.py` lines
105-107): its body is `return self._job_title`. -/
def CachedJob.local_cache_file (s : CachedJob) : String :=
  s._job_title

/-- Property setter `CachedJob.local_cache_file` (`cached_job.py` lines
109-111): assigns `self._local_cache_file`. -/
def CachedJob.set_local_cache_file (s : CachedJob) (file_path : String) : CachedJob :=
  { s with _local_cache_file := some file_path }

/-- Python dict assignment `d[k] = v` on an insertion-ordered dict
modelled as an association list: overwrite in place, else append. -/
def dictInsert : List (String × String) → String → String → List (String × String)
  | [], k, v => [(k, v)]
  | (k', v') :: rest, k, v =>
      if k' = k then (k, v) :: rest else (k', v') :: dictInsert rest k v

/-- `CachedJob.save` (`cached_job.py` lines 113-116): put
`job_title ↦ job_id` into the in-memory cache and dump it to
`_local_cache_file`.  Returns the updated object and the performed file
write (path, contents). -/
def CachedJob.save (s : CachedJob) :
    CachedJob × (Option String × List (String × String)) :=
  let c := dictInsert s._job_cache s._job_title s.job_id
  ({ s with _job_cache := c }, (s._local_cache_file, c))

/-- `CachedJob.start_and_wait` (`cached_job.py` lines 118-126).  The
inherited `BatchJob.start_and_wait` is library code outside this
repository; its outcome is an input: `true` means the job was driven to
`finished`, `false` that it raised.  On success the cache is saved only
when `_local_cache_file` is truthy; an exception propagates before any
save.  Returns the object and the performed file writes. -/
def CachedJob.start_and_wait (s : CachedJob) (superFinished : Bool) :
    Except Unit (CachedJob × List (Option String × List (String × String))) :=
  if superFinished then
    if truthyOptStr s._local_cache_file then
      let r := s.save
      .ok (r.1, [r.2])
    else
      .ok (s, [])
  else
    .error ()

/-! ## `notebooks/utils.py` result resolvers and job listing -/

/-- One downloadable asset of a finished job's result set: the fields
`get_files_from_dc` / `get_urls_from_dc` read (`utils.py` lines 182-186
and 211): `asset.name`, `asset.metadata["type"]`, `asset.href`. -/
structure Asset where
  name : String
  media_type : String
  href : String
  deriving DecidableEq, Repr

/-- Python `str.startswith`: prefix test on the character sequence. -/
def pyStartsWith (s p : String) : Bool :=
  p.data.isPrefixOf s.data

/-- The media-type filter of `get_files_from_dc` (`utils.py` lines
183-184): `meta_type.startswith("application/x-netcdf") or
meta_type.startswith("image/tiff")`.  `get_urls_from_dc` does *not*
apply it. -/
def resultMediaTypeOk (asset : Asset) : Bool :=
  pyStartsWith asset.media_type "application/x-netcdf"
    || pyStartsWith asset.media_type "image/tiff"

/-- The `chunk_size=2 * 1024 * 1024` of `asset.download`
(`utils.py` line 185). -/
def download_chunk_size : Nat := 2 * 1024 * 1024

/-- The asset loop of `get_files_from_dc` (`utils.py` lines 181-187),
on the finished job's asset list: collects the downloaded local paths
(`out_directory / asset.name`), paired with the performed `download`
calls (target path, chunk size). -/
def get_files_from_dc (out_directory : String) :
    List Asset → List String × List (String × Nat)
  | [] => ([], [])
  | asset :: rest =>
      if resultMediaTypeOk asset then
        let file := out_directory ++ "/" ++ asset.name
        let r := get_files_from_dc out_directory rest
        (file :: r.1, (file, download_chunk_size) :: r.2)
      else
        get_files_from_dc out_directory rest

/-- `get_urls_from_dc` (`utils.py` line 211):
`[asset.href for asset in results.get_assets()]` — every asset's href,
with no media-type filter. -/
def get_urls_from_dc (assets : List Asset) : List String :=
  assets.map (fun asset => asset.href)

/-- Python `<` on strings, character by character (lexicographic). -/
def charListLt : List Char → List Char → Bool
  | [], [] => false
  | [], _ :: _ => true
  | _ :: _, [] => false
  | a :: as, b :: bs => if a < b then true else if b < a then false else charListLt as bs

/-- Python string comparison `a < b`. -/
def pyStrLt (a b : String) : Bool :=
  charListLt a.data b.data

/-- The reducer of `get_latest_completed_job` (`utils.py` line 39):
`j1 if j1["updated"] > j2["updated"] else j2`. -/
def laterJob (j1 j2 : JobSummary) : JobSummary :=
  if pyStrLt j2.updated j1.updated then j1 else j2

/-- `get_latest_completed_job` (`utils.py` lines 31-39): `None` on an
empty listing or when no job matches title+`finished`; otherwise the
fold of the match list under `laterJob` (initial element the first
match, as produced by `next(match_jobs, None)`). -/
def get_latest_completed_job (jobs : List JobSummary) (title : String) :
    Option JobSummary :=
  if jobs.isEmpty then none
  else
    match jobs.filter (fun job => job.title == title && job.status == "finished") with
    | [] => none
    | m :: rest => some (rest.foldl laterJob m)

/-! ## Claims -/

lemma pollIntervalSeq_nonneg_le (maxPollInterval : ℚ) (h : 0 ≤ maxPollInterval) (n : Nat) :
    0 ≤ pollIntervalSeq maxPollInterval n ∧
    pollIntervalSeq maxPollInterval n ≤ maxPollInterval := by
  induction n with
  | zero =>
    exact ⟨le_min (by norm_num) h, min_le_right _ _⟩
  | succ n ih =>
    refine ⟨le_min (by nlinarith [ih.1]) h, min_le_right _ _⟩

/-- C4: the poller's interval sequence starts at `min(5, max_poll_interval)`,
each step is `min(1.25 * interval, max_poll_interval)`, and for a
nonnegative cap the sequence is non-decreasing with every element at
most the cap. -/
theorem C4_backoff_monotone (maxPollInterval : ℚ) (h : 0 ≤ maxPollInterval) (n : Nat) :
    pollIntervalSeq maxPollInterval 0 = min 5 maxPollInterval ∧
    pollIntervalSeq maxPollInterval n ≤ pollIntervalSeq maxPollInterval (n + 1) ∧
    pollIntervalSeq maxPollInterval n ≤ maxPollInterval := by
  obtain ⟨h0, hle⟩ := pollIntervalSeq_nonneg_le maxPollInterval h n
  refine ⟨rfl, ?_, hle⟩
  show pollIntervalSeq maxPollInterval n
      ≤ min (5/4 * pollIntervalSeq maxPollInterval n) maxPollInterval
  exact le_min (by nlinarith) hle

/-- Witness for C4 at the default cap 60 and step 3. -/
theorem C4_backoff_monotone_witness :
    (0 : ℚ) ≤ 60 ∧
    (pollIntervalSeq 60 0 = min 5 60 ∧
     pollIntervalSeq 60 3 ≤ pollIntervalSeq 60 (3 + 1) ∧
     pollIntervalSeq 60 3 ≤ 60) :=
  ⟨by norm_num, C4_backoff_monotone 60 (by norm_num) 3⟩

lemma waitLoop_soft_run (maxP cr : ℚ) (sm : Nat) (j : String) :
    ∀ (errs rest : List PollEvent) (i : ℚ) (c : Nat) (li : Option JobInfo),
      (∀ e ∈ errs, e = PollEvent.connErr ∨ e = PollEvent.apiErr 503) →
      c + errs.length ≤ sm →
      waitLoop maxP cr sm j (errs ++ rest) i c li
        = ((waitLoop maxP cr sm j rest i (c + errs.length) li).1,
           List.replicate errs.length (Action.retrySleep cr)
             ++ (waitLoop maxP cr sm j rest i (c + errs.length) li).2) := by
  intro errs
  induction errs with
  | nil =>
    intro rest i c li _ _
    simp
  | cons e errs ih =>
    intro rest i c li hsoft hle
    have he := hsoft e (List.mem_cons_self e errs)
    have hrest : ∀ e' ∈ errs, e' = PollEvent.connErr ∨ e' = PollEvent.apiErr 503 :=
      fun e' h' => hsoft e' (List.mem_cons_of_mem _ h')
    have hlen : c + (e :: errs).length = (c + 1) + errs.length := by
      simp [List.length_cons]; omega
    have hc : ¬ (c + 1 > sm) := by
      simp only [List.length_cons] at hle; omega
    have hle' : (c + 1) + errs.length ≤ sm := by
      simp only [List.length_cons] at hle; omega
    have key := ih rest i (c + 1) li hrest hle'
    rcases he with he | he <;> subst he
    · show waitLoop maxP cr sm j (PollEvent.connErr :: (errs ++ rest)) i c li = _
      simp only [waitLoop, if_neg hc, key, hlen]
      simp [List.replicate_succ]
    · show waitLoop maxP cr sm j (PollEvent.apiErr 503 :: (errs ++ rest)) i c li = _
      simp only [waitLoop, if_pos rfl, if_neg hc, key, hlen]
      simp [List.replicate_succ]

/-- C2: starting from a fresh soft-error counter, a run of at most
`soft_error_max` soft errors (connection errors or HTTP 503) is
tolerated, each one followed by one `sleep(connection_retry_interval)`
and the counter incremented once per error; one further soft error
raises "Excessive soft errors" with no additional retry sleep.  The
budget defaults to 10 and `start_and_wait` raises it to 50. -/
theorem C2_soft_error_budget (maxP cr : ℚ) (sm : Nat) (j : String)
    (errs : List PollEvent) (e : PollEvent) (rest : List PollEvent)
    (hsoft : ∀ x ∈ errs, x = PollEvent.connErr ∨ x = PollEvent.apiErr 503)
    (he : e = PollEvent.connErr ∨ e = PollEvent.apiErr 503) :
    (errs.length ≤ sm →
       wait maxP cr sm j (errs ++ rest)
         = ((waitLoop maxP cr sm j rest (min 5 maxP) errs.length none).1,
            List.replicate errs.length (Action.retrySleep cr)
              ++ (waitLoop maxP cr sm j rest (min 5 maxP) errs.length none).2)) ∧
    (errs.length = sm →
       wait maxP cr sm j (errs ++ e :: rest)
         = (WaitResult.excessiveSoftErrors,
            List.replicate sm (Action.retrySleep cr))) ∧
    soft_error_max_default = 10 ∧
    (∀ evs, start_and_wait_poll j evs = wait 60 30 50 j evs) := by
  refine ⟨?_, ?_, rfl, fun evs => rfl⟩
  · intro hle
    have h1 := waitLoop_soft_run maxP cr sm j errs rest (min 5 maxP) 0 none hsoft (by omega)
    simpa [wait] using h1
  · intro hlen
    have h1 := waitLoop_soft_run maxP cr sm j errs (e :: rest) (min 5 maxP) 0 none hsoft
      (by omega)
    have hstep : waitLoop maxP cr sm j (e :: rest) (min 5 maxP) (0 + errs.length) none
        = (WaitResult.excessiveSoftErrors, []) := by
      have hgt : (0 + errs.length) + 1 > sm := by omega
      rcases he with he | he <;> subst he <;> simp [waitLoop, hgt] <;> omega
    simp only [wait, h1, hstep]
    simp [hlen]

/-- Witness for C2: `soft_error_max = 3`, three connection errors
tolerated with three retry sleeps, the fourth aborts. -/
theorem C2_soft_error_budget_witness :
    (∀ x ∈ List.replicate 3 PollEvent.connErr,
       x = PollEvent.connErr ∨ x = PollEvent.apiErr 503) ∧
    wait 60 30 3 "job-0" (List.replicate 3 PollEvent.connErr ++ PollEvent.connErr :: [])
      = (WaitResult.excessiveSoftErrors, List.replicate 3 (Action.retrySleep 30)) :=
  ⟨by decide,
   ((C2_soft_error_budget 60 30 3 "job-0" (List.replicate 3 PollEvent.connErr)
      PollEvent.connErr [] (by decide) (Or.inl rfl)).2.1) (by decide)⟩


lemma waitLoop_statuses (maxP cr : ℚ) (sm : Nat) (j : String) :
    ∀ (statuses : List String) (i : ℚ) (c : Nat) (li : Option JobInfo),
      (waitLoop maxP cr sm j (statuses.map mkStatusEvent) i c li).1
        = waitFirstTerminal j statuses := by
  intro statuses
  induction statuses with
  | nil => intro i c li; rfl
  | cons s rest ih =>
    intro i c li
    by_cases hs : s ∈ pollStatuses
    · simp [waitLoop, mkStatusEvent, waitFirstTerminal, hs, ih]
    · by_cases hf : s = "finished"
      · subst hf
        simp [waitLoop, mkStatusEvent, waitFirstTerminal, hs]
      · simp [waitLoop, mkStatusEvent, waitFirstTerminal, hs, hf]

/-- Counterexample for C3 as stated: the loop also treats `submitted` as
a non-terminal status (`utils.py` line 114), so on the polled sequence
`submitted, finished` the wait succeeds, although `submitted` is the
first status outside the claimed set `{created, queued, running}`
(under the claim the loop would stop there and fail). -/
theorem C3_submitted_counterexample :
    (wait 60 30 10 "job-0" (["submitted", "finished"].map mkStatusEvent)).1
      = WaitResult.finished ∧
    "submitted" ∉ ["created", "queued", "running"] := by
  constructor
  · have h := waitLoop_statuses 60 30 10 "job-0" ["submitted", "finished"] (min 5 60) 0 none
    simp only [wait] at *
    rw [h]
    decide
  · decide

/-- C3 amended: the poll loop terminates exactly at the first polled
status that is not one of `{submitted, created, queued, running}`, and a
non-`finished` terminal status makes the wait fail with "job did not
finish" carrying the job id and that status; in particular the sequence
`created, running, error` fails referencing status `error`. -/
theorem C3_terminal_status (maxP cr : ℚ) (sm : Nat) (jobId : String)
    (statuses : List String) :
    (wait maxP cr sm jobId (statuses.map mkStatusEvent)).1
      = waitFirstTerminal jobId statuses ∧
    (wait 60 30 10 jobId (["created", "running", "error"].map mkStatusEvent)).1
      = WaitResult.jobFailed jobId "error" := by
  constructor
  · exact waitLoop_statuses maxP cr sm jobId statuses (min 5 maxP) 0 none
  · rw [show (wait 60 30 10 jobId (["created", "running", "error"].map mkStatusEvent)).1
        = waitFirstTerminal jobId ["created", "running", "error"] from
      waitLoop_statuses 60 30 10 jobId _ (min 5 60) 0 none]
    simp [waitFirstTerminal, pollStatuses]

/-- Counterexample for C8 as stated: a 403 on the very first status poll
does not let the poller "continue polling" — after `authenticate_oidc()`
the handler falls through (there is no `continue`) and reads the
never-assigned `job_info` local, so the wait dies with an
`UnboundLocalError` right after the single re-authentication call. -/
theorem C8_first_poll_403_counterexample :
    wait 60 30 10 "job-0" [PollEvent.apiErr 403]
      = (WaitResult.unboundLocal, [Action.reauth]) := by
  simp [wait, waitLoop]

/-- C8 amended: on a 403 the poller re-authenticates exactly once and
does not touch the soft-error counter; if some status fetch has already
succeeded it re-processes that stale status and keeps polling, while a
403 before any successful fetch raises an unbound-local error; an API
error with any status other than 403 and 503 is re-raised immediately
with no retry. -/
theorem C8_auth_and_hard_errors (maxP cr : ℚ) (sm : Nat) (j : String)
    (rest : List PollEvent) (i : ℚ) (c : Nat) (info : JobInfo) (code : Nat)
    (hs : info.status.getD "N/A" ∈ pollStatuses)
    (hc403 : code ≠ 403) (hc503 : code ≠ 503) :
    waitLoop maxP cr sm j (PollEvent.apiErr 403 :: rest) i c (some info)
      = ((waitLoop maxP cr sm j rest (min (5/4 * i) maxP) c (some info)).1,
         Action.reauth :: Action.printStatus j (info.status.getD "N/A")
           :: Action.pollSleep i
           :: (waitLoop maxP cr sm j rest (min (5/4 * i) maxP) c (some info)).2) ∧
    waitLoop maxP cr sm j (PollEvent.apiErr 403 :: rest) i c none
      = (WaitResult.unboundLocal, [Action.reauth]) ∧
    waitLoop maxP cr sm j (PollEvent.apiErr code :: rest) i c (some info)
      = (WaitResult.apiError code, []) := by
  refine ⟨?_, ?_, ?_⟩
  · simp [waitLoop, hs]
  · simp [waitLoop]
  · simp [waitLoop, hc403, hc503]

/-- Witness for C8 at a concrete stale status `running` and hard error 500. -/
theorem C8_auth_and_hard_errors_witness :
    waitLoop 60 30 10 "job-0" [PollEvent.apiErr 403] 5 0 (some ⟨some "running", none⟩)
      = ((waitLoop 60 30 10 "job-0" [] (min (5/4 * 5) 60) 0 (some ⟨some "running", none⟩)).1,
         Action.reauth :: Action.printStatus "job-0" "running"
           :: Action.pollSleep 5
           :: (waitLoop 60 30 10 "job-0" [] (min (5/4 * 5) 60) 0
                (some ⟨some "running", none⟩)).2) ∧
    waitLoop 60 30 10 "job-0" [PollEvent.apiErr 403] 5 0 none
      = (WaitResult.unboundLocal, [Action.reauth]) ∧
    waitLoop 60 30 10 "job-0" [PollEvent.apiErr 500] 5 0 (some ⟨some "running", none⟩)
      = (WaitResult.apiError 500, []) :=
  C8_auth_and_hard_errors 60 30 10 "job-0" [] 5 0 ⟨some "running", none⟩ 500
    (by decide) (by decide) (by decide)


/-- C1: precedence of the `CachedJob` resolver — cache hit (with
`recalculate` false) binds the cached id with `is_cached` and creates
nothing; otherwise a given, backend-verified `job_id` is bound; otherwise
a given graph leads to exactly one `create_job` call and the issued id;
otherwise the "insufficient arguments" error is raised.  Consequently two
resolves of the same title on a populated cache (even with different
backend-issued fresh ids) create no job and bind the same id. -/
theorem C1_resolver_precedence (job_title : String) (lcf : Option String)
    (backendJobs : List JobSummary) (issuedId : String)
    (job_id : Option String) (flat_graph : Option Graph) (recalculate : Bool)
    (cache : List (String × String)) :
    (∀ cachedId, cache.lookup job_title = some cachedId → recalculate = false →
       cachedJobInit job_title lcf backendJobs issuedId job_id flat_graph
           recalculate cache
         = (.ok { _job_title := job_title, _local_cache_file := lcf,
                  _flat_graph := flat_graph, _job_cache := cache,
                  _is_cached := true, job_id := cachedId }, [])) ∧
    ((cache.lookup job_title = none ∨ recalculate = true) →
       truthyOptStr job_id = true →
       backendJobs.any (fun job => job.id == job_id.getD "") = true →
       cachedJobInit job_title lcf backendJobs issuedId job_id flat_graph
           recalculate cache
         = (.ok { _job_title := job_title, _local_cache_file := lcf,
                  _flat_graph := flat_graph, _job_cache := cache,
                  _is_cached := false, job_id := job_id.getD "" }, [])) ∧
    ((cache.lookup job_title = none ∨ recalculate = true) →
       truthyOptStr job_id = false →
       truthyOptGraph flat_graph = true →
       cachedJobInit job_title lcf backendJobs issuedId job_id flat_graph
           recalculate cache
         = (.ok { _job_title := job_title, _local_cache_file := lcf,
                  _flat_graph := flat_graph, _job_cache := cache,
                  _is_cached := false, job_id := issuedId },
            [(flat_graph.getD [], job_title)])) ∧
    ((cache.lookup job_title = none ∨ recalculate = true) →
       truthyOptStr job_id = false →
       truthyOptGraph flat_graph = false →
       cachedJobInit job_title lcf backendJobs issuedId job_id flat_graph
           recalculate cache
         = (.error .insufficientArguments, [])) ∧
    (∀ fs cachedId issued1 issued2,
       (loadCache fs lcf).lookup job_title = some cachedId →
       (cachedJobResolve fs job_title lcf backendJobs issued1 job_id
           flat_graph false).2 = [] ∧
       (cachedJobResolve fs job_title lcf backendJobs issued2 job_id
           flat_graph false).2 = [] ∧
       ∃ s1 s2,
         (cachedJobResolve fs job_title lcf backendJobs issued1 job_id
             flat_graph false).1 = .ok s1 ∧
         (cachedJobResolve fs job_title lcf backendJobs issued2 job_id
             flat_graph false).1 = .ok s2 ∧
         s1.job_id = cachedId ∧ s2.job_id = cachedId) := by
  refine ⟨?_, ?_, ?_, ?_, ?_⟩
  · intro cachedId hhit hrec
    subst hrec
    simp [cachedJobInit, hhit]
  · intro hmiss hjid hver
    rcases hmiss with h | h
    · simp [cachedJobInit, h, cachedJobInitUncached, hjid, hver]
    · subst h
      cases hlk : cache.lookup job_title <;>
        simp [cachedJobInit, hlk, cachedJobInitUncached, hjid, hver]
  · intro hmiss hjid hgr
    rcases hmiss with h | h
    · simp [cachedJobInit, h, cachedJobInitUncached, hjid, hgr]
    · subst h
      cases hlk : cache.lookup job_title <;>
        simp [cachedJobInit, hlk, cachedJobInitUncached, hjid, hgr]
  · intro hmiss hjid hgr
    rcases hmiss with h | h
    · simp [cachedJobInit, h, cachedJobInitUncached, hjid, hgr]
    · subst h
      cases hlk : cache.lookup job_title <;>
        simp [cachedJobInit, hlk, cachedJobInitUncached, hjid, hgr]
  · intro fs cachedId issued1 issued2 hhit
    refine ⟨?_, ?_, ?_⟩
    · simp [cachedJobResolve, cachedJobInit, hhit]
    · simp [cachedJobResolve, cachedJobInit, hhit]
    · refine ⟨{ _job_title := job_title, _local_cache_file := lcf,
                _flat_graph := flat_graph, _job_cache := loadCache fs lcf,
                _is_cached := true, job_id := cachedId },
              { _job_title := job_title, _local_cache_file := lcf,
                _flat_graph := flat_graph, _job_cache := loadCache fs lcf,
                _is_cached := true, job_id := cachedId },
              ?_, ?_, rfl, rfl⟩ <;>
        simp [cachedJobResolve, cachedJobInit, hhit]

/-- Witness for C1: a populated cache `{"t": "job-7"}` is hit without
creating a job, twice, with different backend-issued fresh ids. -/
theorem C1_resolver_precedence_witness :
    ([("t", "job-7")] : List (String × String)).lookup "t" = some "job-7" ∧
    cachedJobInit "t" (some "cache.json") [] "fresh-1" none none false [("t", "job-7")]
      = (.ok { _job_title := "t", _local_cache_file := some "cache.json",
               _flat_graph := none, _job_cache := [("t", "job-7")],
               _is_cached := true, job_id := "job-7" }, []) ∧
    ((cachedJobResolve [("cache.json", [("t", "job-7")])] "t" (some "cache.json")
        [] "fresh-1" none none false).2 = [] ∧
     (cachedJobResolve [("cache.json", [("t", "job-7")])] "t" (some "cache.json")
        [] "fresh-2" none none false).2 = [] ∧
     ∃ s1 s2,
       (cachedJobResolve [("cache.json", [("t", "job-7")])] "t" (some "cache.json")
          [] "fresh-1" none none false).1 = .ok s1 ∧
       (cachedJobResolve [("cache.json", [("t", "job-7")])] "t" (some "cache.json")
          [] "fresh-2" none none false).1 = .ok s2 ∧
       s1.job_id = "job-7" ∧ s2.job_id = "job-7") :=
  ⟨rfl,
   (C1_resolver_precedence "t" (some "cache.json") [] "fresh-1" none none false
      [("t", "job-7")]).1 "job-7" rfl rfl,
   (C1_resolver_precedence "t" (some "cache.json") [] "fresh-1" none none false
      [("t", "job-7")]).2.2.2.2 [("cache.json", [("t", "job-7")])] "job-7"
     "fresh-1" "fresh-2" rfl⟩

/-- C5: on a cache miss (or with `recalculate`), a supplied job id that
does not occur among the ids listed by the backend raises the
"job id not found in backend." error, and no `create_job` call is made. -/
theorem C5_explicit_id_validation (job_title : String) (lcf : Option String)
    (backendJobs : List JobSummary) (issuedId : String) (jid : String)
    (flat_graph : Option Graph) (recalculate : Bool)
    (cache : List (String × String))
    (hmiss : cache.lookup job_title = none ∨ recalculate = true)
    (hjid : jid ≠ "")
    (habsent : ∀ job ∈ backendJobs, job.id ≠ jid) :
    cachedJobInit job_title lcf backendJobs issuedId (some jid) flat_graph
        recalculate cache
      = (.error .jobIdNotFound, []) := by
  have hempty : jid.isEmpty = false :=
    Bool.eq_false_iff.mpr (fun h => hjid ((String.isEmpty_iff jid).mp h))
  have htr : truthyOptStr (some jid) = true := by
    simp [truthyOptStr, hempty]
  have hany : backendJobs.any (fun job => job.id == jid) = false := by
    simp only [List.any_eq_false]
    intro job hjob
    simpa using habsent job hjob
  rcases hmiss with h | h
  · simp [cachedJobInit, h, cachedJobInitUncached, htr, hany]
  · subst h
    cases hlk : cache.lookup job_title <;>
      simp [cachedJobInit, hlk, cachedJobInitUncached, htr, hany]

/-- Witness for C5: id `zzz` absent from a one-job backend listing. -/
theorem C5_explicit_id_validation_witness :
    (([] : List (String × String)).lookup "t" = none ∨ False) ∧
    ("zzz" : String) ≠ "" ∧
    (∀ job ∈ [JobSummary.mk "job-1" "t" "finished" "2022"], job.id ≠ "zzz") ∧
    cachedJobInit "t" (some "cache.json") [JobSummary.mk "job-1" "t" "finished" "2022"]
        "fresh-1" (some "zzz") none false []
      = (.error .jobIdNotFound, []) :=
  ⟨Or.inl rfl, by decide, by decide,
   C5_explicit_id_validation "t" (some "cache.json")
     [JobSummary.mk "job-1" "t" "finished" "2022"] "fresh-1" "zzz" none false []
     (Or.inl rfl) (by decide) (by decide)⟩

lemma dictInsert_lookup (d : List (String × String)) (k v : String) :
    (dictInsert d k v).lookup k = some v := by
  induction d with
  | nil => simp [dictInsert]
  | cons kv rest ih =>
    obtain ⟨k', v'⟩ := kv
    by_cases h : k' = k
    · simp [dictInsert, h, List.lookup]
    · have h' : (k == k') = false := beq_eq_false_iff_ne.mpr (fun e => h e.symm)
      simp [dictInsert, h, h', List.lookup, ih]

/-- Counterexample for C6's fail-fast clause: with no local cache path
configured and `recalculate` left false, the resolver succeeds anyway
(the `TypeError` from `open(None)` is swallowed and the cache treated as
empty) and `start_and_wait` silently performs no save — no error is
raised anywhere. -/
theorem C6_no_fail_fast_counterexample :
    cachedJobResolve [] "t" none [] "job-1" none (some [("process", "ndvi")]) false
      = (.ok { _job_title := "t", _local_cache_file := none,
               _flat_graph := some [("process", "ndvi")], _job_cache := [],
               _is_cached := false, job_id := "job-1" },
         [([("process", "ndvi")], "t")]) ∧
    CachedJob.start_and_wait
        { _job_title := "t", _local_cache_file := none,
          _flat_graph := some [("process", "ndvi")], _job_cache := [],
          _is_cached := false, job_id := "job-1" } true
      = .ok ({ _job_title := "t", _local_cache_file := none,
               _flat_graph := some [("process", "ndvi")], _job_cache := [],
               _is_cached := false, job_id := "job-1" }, []) := by
  exact ⟨rfl, rfl⟩

/-- C6 amended: when `start_and_wait` drives the job to `finished` and a
local cache file is configured, the in-memory mapping gains
`title ↦ job_id` and is written to that file; when the job fails, the
exception propagates and nothing is saved; when no cache path is
configured, the save is silently skipped with no error (the code does
not fail fast). -/
theorem C6_cache_persistence (s : CachedJob) :
    (truthyOptStr s._local_cache_file = true →
       s.start_and_wait true
         = .ok ({ s with _job_cache := dictInsert s._job_cache s._job_title s.job_id },
                [(s._local_cache_file, dictInsert s._job_cache s._job_title s.job_id)]) ∧
       (dictInsert s._job_cache s._job_title s.job_id).lookup s._job_title
         = some s.job_id) ∧
    (s.start_and_wait false = .error ()) ∧
    (truthyOptStr s._local_cache_file = false →
       s.start_and_wait true = .ok (s, [])) := by
  refine ⟨?_, rfl, ?_⟩
  · intro htr
    exact ⟨by simp [CachedJob.start_and_wait, CachedJob.save, htr],
           dictInsert_lookup _ _ _⟩
  · intro hf
    simp [CachedJob.start_and_wait, hf]

/-- Witness for C6 with a configured cache file. -/
theorem C6_cache_persistence_witness :
    truthyOptStr (some "cache.json") = true ∧
    (CachedJob.start_and_wait
        { _job_title := "t", _local_cache_file := some "cache.json",
          _flat_graph := none, _job_cache := [], _is_cached := false,
          job_id := "job-1" } true
       = .ok ({ _job_title := "t", _local_cache_file := some "cache.json",
                _flat_graph := none, _job_cache := [("t", "job-1")],
                _is_cached := false, job_id := "job-1" },
              [(some "cache.json", [("t", "job-1")])]) ∧
     ([("t", "job-1")] : List (String × String)).lookup "t" = some "job-1") :=
  ⟨by decide,
   (C6_cache_persistence
      { _job_title := "t", _local_cache_file := some "cache.json",
        _flat_graph := none, _job_cache := [], _is_cached := false,
        job_id := "job-1" }).1 (by decide)⟩

/-- C9: the public `local_cache_file` property getter returns the job
title, not the cache file path, whatever the stored path is and even
right after the setter assigned a new path. -/
theorem C9_local_cache_file_returns_title (s : CachedJob) (new_path : String) :
    s.local_cache_file = s._job_title ∧
    (s.set_local_cache_file new_path).local_cache_file = s._job_title ∧
    (s.set_local_cache_file new_path)._local_cache_file = some new_path :=
  ⟨rfl, rfl, rfl⟩


/-- Counterexample for C7 as stated: on assets with media types
netcdf, tiff, plain text, the url variant returns all three hrefs — it
applies no media-type filter, while the claim says both variants return
exactly the two accepted assets. -/
theorem C7_url_filtering_counterexample :
    get_urls_from_dc
        [⟨"a.nc", "application/x-netcdf", "https://h/a.nc"⟩,
         ⟨"b.tif", "image/tiff", "https://h/b.tif"⟩,
         ⟨"c.txt", "text/plain", "https://h/c.txt"⟩]
      = ["https://h/a.nc", "https://h/b.tif", "https://h/c.txt"] ∧
    resultMediaTypeOk ⟨"c.txt", "text/plain", "https://h/c.txt"⟩ = false := by
  exact ⟨rfl, by decide⟩

/-- C7 amended: the download variant returns the local paths of exactly
the assets whose media type starts with `application/x-netcdf` or
`image/tiff`, downloading each of them chunked at 2 MiB; the url
variant returns the hrefs of *all* assets, unfiltered. -/
theorem C7_asset_filtering (out_directory : String) (assets : List Asset) :
    (get_files_from_dc out_directory assets).1
      = (assets.filter resultMediaTypeOk).map
          (fun a => out_directory ++ "/" ++ a.name) ∧
    (get_files_from_dc out_directory assets).2
      = (assets.filter resultMediaTypeOk).map
          (fun a => (out_directory ++ "/" ++ a.name, download_chunk_size)) ∧
    download_chunk_size = 2 * 1024 * 1024 ∧
    get_urls_from_dc assets = assets.map (fun a => a.href) := by
  have key : ∀ l : List Asset,
      get_files_from_dc out_directory l
        = ((l.filter resultMediaTypeOk).map (fun a => out_directory ++ "/" ++ a.name),
           (l.filter resultMediaTypeOk).map
             (fun a => (out_directory ++ "/" ++ a.name, download_chunk_size))) := by
    intro l
    induction l with
    | nil => rfl
    | cons a rest ih =>
      by_cases h : resultMediaTypeOk a = true <;>
        simp [get_files_from_dc, h, ih]
  exact ⟨by rw [key], by rw [key], rfl, rfl⟩

lemma charListLt_irrefl (l : List Char) : charListLt l l = false := by
  induction l with
  | nil => rfl
  | cons a as ih => simp [charListLt, lt_irrefl, ih]

lemma charListLt_nil_false (x : List Char) : charListLt x [] = false := by
  cases x <;> rfl

lemma charListLt_asymm : ∀ (x y : List Char),
    charListLt x y = true → charListLt y x = false := by
  intro x
  induction x with
  | nil =>
    intro y _
    exact charListLt_nil_false y
  | cons x0 xs ih =>
    intro y h
    cases y with
    | nil => simp [charListLt] at h
    | cons y0 ys =>
      by_cases hxy : x0 < y0
      · have hnyx : ¬ y0 < x0 := fun hh => lt_irrefl _ (lt_trans hxy hh)
        simp [charListLt, hnyx, hxy]
      · by_cases hyx : y0 < x0
        · simp [charListLt, hxy, hyx] at h
        · simp [charListLt, hxy, hyx] at h
          simp [charListLt, hxy, hyx, ih ys h]

lemma charListLt_false_trans : ∀ (x y z : List Char),
    charListLt x y = false → charListLt y z = false → charListLt x z = false := by
  intro x
  induction x with
  | nil =>
    intro y z h1 h2
    cases y with
    | nil =>
      cases z with
      | nil => rfl
      | cons z0 zs => simp [charListLt] at h2
    | cons y0 ys => simp [charListLt] at h1
  | cons x0 xs ih =>
    intro y z h1 h2
    cases z with
    | nil => exact charListLt_nil_false _
    | cons z0 zs =>
      cases y with
      | nil => simp [charListLt] at h2
      | cons y0 ys =>
        by_cases hxy : x0 < y0
        · simp [charListLt, hxy] at h1
        · by_cases hyz : y0 < z0
          · simp [charListLt, hyz] at h2
          · by_cases hyx : y0 < x0
            · by_cases hzy : z0 < y0
              · have hzx : z0 < x0 := lt_trans hzy hyx
                have hnxz : ¬ x0 < z0 := fun hh => lt_irrefl _ (lt_trans hh hzx)
                simp [charListLt, hnxz, hzx]
              · have heq : y0 = z0 := le_antisymm (not_lt.mp hzy) (not_lt.mp hyz)
                have hzx : z0 < x0 := heq ▸ hyx
                have hnxz : ¬ x0 < z0 := fun hh => lt_irrefl _ (lt_trans hh hzx)
                simp [charListLt, hnxz, hzx]
            · have hxy' : x0 = y0 := le_antisymm (not_lt.mp hyx) (not_lt.mp hxy)
              simp [charListLt, hxy, hyx] at h1
              by_cases hzy : z0 < y0
              · have hzx : z0 < x0 := hxy' ▸ hzy
                have hnxz : ¬ x0 < z0 := fun hh => lt_irrefl _ (lt_trans hh hzx)
                simp [charListLt, hnxz, hzx]
              · have heq : y0 = z0 := le_antisymm (not_lt.mp hzy) (not_lt.mp hyz)
                simp [charListLt, hzy, hyz] at h2
                have hxz : x0 = z0 := hxy'.trans heq
                have hn1 : ¬ x0 < z0 := fun hh => lt_irrefl _ (hxz ▸ hh)
                have hn2 : ¬ z0 < x0 := fun hh => lt_irrefl _ (hxz ▸ hh)
                simp [charListLt, hn1, hn2, ih ys zs h1 h2]

lemma pyStrLt_irrefl (x : String) : pyStrLt x x = false :=
  charListLt_irrefl _

lemma pyStrLt_false_trans (x y z : String) :
    pyStrLt x y = false → pyStrLt y z = false → pyStrLt x z = false :=
  charListLt_false_trans _ _ _

lemma laterJob_cases (a b : JobSummary) : laterJob a b = a ∨ laterJob a b = b := by
  unfold laterJob
  split
  · exact Or.inl rfl
  · exact Or.inr rfl

lemma laterJob_ge (a b : JobSummary) :
    pyStrLt (laterJob a b).updated a.updated = false ∧
    pyStrLt (laterJob a b).updated b.updated = false := by
  cases hc : pyStrLt b.updated a.updated with
  | true =>
    have h : laterJob a b = a := by simp [laterJob, hc]
    rw [h]
    exact ⟨pyStrLt_irrefl _, charListLt_asymm _ _ hc⟩
  | false =>
    have h : laterJob a b = b := by simp [laterJob, hc]
    rw [h]
    exact ⟨hc, pyStrLt_irrefl _⟩

lemma foldl_laterJob_mem (l : List JobSummary) : ∀ (a : JobSummary),
    l.foldl laterJob a = a ∨ l.foldl laterJob a ∈ l := by
  induction l with
  | nil => intro a; exact Or.inl rfl
  | cons b bs ih =>
    intro a
    rw [List.foldl_cons]
    rcases ih (laterJob a b) with h | h
    · rcases laterJob_cases a b with h' | h'
      · exact Or.inl (h.trans h')
      · exact Or.inr (by rw [h, h']; exact List.mem_cons_self b bs)
    · exact Or.inr (List.mem_cons_of_mem b h)

lemma foldl_laterJob_ge (l : List JobSummary) : ∀ (a : JobSummary),
    pyStrLt (l.foldl laterJob a).updated a.updated = false ∧
    ∀ j ∈ l, pyStrLt (l.foldl laterJob a).updated j.updated = false := by
  induction l with
  | nil =>
    intro a
    exact ⟨pyStrLt_irrefl _, by simp⟩
  | cons b bs ih =>
    intro a
    obtain ⟨h1, h2⟩ := ih (laterJob a b)
    obtain ⟨ha, hb⟩ := laterJob_ge a b
    rw [List.foldl_cons]
    refine ⟨pyStrLt_false_trans _ _ _ h1 ha, ?_⟩
    intro j hj
    rcases List.mem_cons.mp hj with hj | hj
    · subst hj
      exact pyStrLt_false_trans _ _ _ h1 hb
    · exact h2 j hj

/-- C10: `get_latest_completed_job` returns `None` exactly when no job
in the listing has both the requested title and status `finished`;
otherwise it returns one of those matches, and no match has a strictly
greater `updated` value (the returned job is the latest completed one
under Python string comparison). -/
theorem C10_latest_completed (jobs : List JobSummary) (title : String) :
    (jobs.filter (fun job => job.title == title && job.status == "finished") = [] →
       get_latest_completed_job jobs title = none) ∧
    (∀ m rest,
       jobs.filter (fun job => job.title == title && job.status == "finished")
           = m :: rest →
       get_latest_completed_job jobs title = some (rest.foldl laterJob m) ∧
       rest.foldl laterJob m ∈ m :: rest ∧
       ∀ j ∈ m :: rest,
         pyStrLt (rest.foldl laterJob m).updated j.updated = false) := by
  constructor
  · intro h
    by_cases he : jobs.isEmpty <;> simp [get_latest_completed_job, he, h]
  · intro m rest hf
    have hm : m ∈ jobs := List.mem_of_mem_filter (hf ▸ List.mem_cons_self m rest)
    have hne : jobs.isEmpty = false := by
      cases jobs
      · simp at hm
      · rfl
    refine ⟨by simp [get_latest_completed_job, hne, hf], ?_, ?_⟩
    · rcases foldl_laterJob_mem rest m with h | h
      · rw [h]; exact List.mem_cons_self m rest
      · exact List.mem_cons_of_mem m h
    · intro j hj
      rcases List.mem_cons.mp hj with hj | hj
      · rw [hj]
        exact (foldl_laterJob_ge rest m).1
      · exact (foldl_laterJob_ge rest m).2 j hj

/-- Witness for C10: among two finished jobs titled `t`, the one updated
later is returned; the `error` job and the differently titled job are
ignored. -/
theorem C10_latest_completed_witness :
    get_latest_completed_job
        [⟨"id1", "t", "finished", "2022-01-01"⟩,
         ⟨"id2", "t", "finished", "2022-06-01"⟩,
         ⟨"id3", "t", "error", "2022-09-09"⟩,
         ⟨"id4", "u", "finished", "2022-12-01"⟩] "t"
      = some (([⟨"id2", "t", "finished", "2022-06-01"⟩] : List JobSummary).foldl
          laterJob ⟨"id1", "t", "finished", "2022-01-01"⟩) ∧
    ([⟨"id2", "t", "finished", "2022-06-01"⟩] : List JobSummary).foldl
        laterJob ⟨"id1", "t", "finished", "2022-01-01"⟩
      ∈ [(⟨"id1", "t", "finished", "2022-01-01"⟩ : JobSummary),
         ⟨"id2", "t", "finished", "2022-06-01"⟩] ∧
    ∀ j ∈ [(⟨"id1", "t", "finished", "2022-01-01"⟩ : JobSummary),
           ⟨"id2", "t", "finished", "2022-06-01"⟩],
      pyStrLt (([⟨"id2", "t", "finished", "2022-06-01"⟩] : List JobSummary).foldl
          laterJob ⟨"id1", "t", "finished", "2022-01-01"⟩).updated j.updated = false :=
  (C10_latest_completed
      [⟨"id1", "t", "finished", "2022-01-01"⟩,
       ⟨"id2", "t", "finished", "2022-06-01"⟩,
       ⟨"id3", "t", "error", "2022-09-09"⟩,
       ⟨"id4", "u", "finished", "2022-12-01"⟩] "t").2
    ⟨"id1", "t", "finished", "2022-01-01"⟩
    [⟨"id2", "t", "finished", "2022-06-01"⟩] (by decide)

end Aquamonitor
